import Mathlib

/-!
Shallow embedding of the auth_service user-management service:
session_manager.py (server-side sessions, expiry, role guards),
jwt_utils.py (bearer tokens), main.py (signup), profile_schemas.py /
profile_routes.py (profile validation and CRUD), and oauth.py
(Google OAuth callback).

Conventions: wall-clock time is modelled as `Nat` seconds; `datetime.utcnow()`
becomes an explicit `now` parameter.  Timestamps the code stores as isoformat
strings are modelled as integer seconds (every isoformat string written by the
code parses back successfully, so the representation is faithful).  Random
bytes drawn from the OS CSPRNG become an explicit `entropy` parameter.
-/

/-- Python values stored in a session mapping: session_manager.py stores
strings, ints, bools, None, and one nested dict (google_info). -/
inductive SVal where
  | vStr (s : String)
  | vInt (n : Nat)
  | vBool (b : Bool)
  | vNone
  | vDict (entries : List (String × SVal))

/-- Python truthiness for the values a session can hold
(`if not request.session.get(...)` style checks). -/
def truthy : Option SVal → Bool
  | some (SVal.vStr s) => !s.isEmpty
  | some (SVal.vInt n) => n != 0
  | some (SVal.vBool b) => b
  | some SVal.vNone => false
  | some (SVal.vDict l) => !l.isEmpty
  | none => false

/-- A session (or any str-keyed dict) as a partial map from keys to values. -/
abbrev Session : Type := String → Option SVal

def Session.empty : Session := fun _ => none

/-- Single-key assignment, `d[k] = v`. -/
def sset (s : Session) (k : String) (v : SVal) : Session :=
  fun q => if q = k then some v else s q

/-- Python `dict.update(kvs)`: sets every key of `kvs`, leaves other keys. -/
def supdate (s : Session) (kvs : List (String × SVal)) : Session :=
  kvs.foldl (fun acc kv => sset acc kv.1 kv.2) s

/-- Build a dict from a key-value list. -/
def sessionOf (kvs : List (String × SVal)) : Session :=
  supdate Session.empty kvs

/-- The base64 URL-safe alphabet used by `base64.urlsafe_b64encode`. -/
def b64urlAlphabet : List Char :=
  "ABCDEFGHIJKLMNOPQRSTUVWXYZabcdefghijklmnopqrstuvwxyz0123456789-_".toList

/-- Six-bit groups of a byte string, 3 bytes to 4 sextets, final group
truncated without padding (token_urlsafe strips the `=` padding). -/
def b64urlIndices : List Nat → List Nat
  | b0 :: b1 :: b2 :: rest =>
      b0 / 4 :: (b0 % 4 * 16 + b1 / 16) :: (b1 % 16 * 4 + b2 / 64) :: b2 % 64 ::
        b64urlIndices rest
  | [b0, b1] => [b0 / 4, b0 % 4 * 16 + b1 / 16, b1 % 16 * 4]
  | [b0] => [b0 / 4, b0 % 4 * 16]
  | [] => []

/-- Model of `secrets.token_urlsafe(nbytes)`: base64url-encode `nbytes` of
CSPRNG output (the byte source is the explicit `entropy` parameter). -/
def token_urlsafe (nbytes : Nat) (entropy : List (Fin 256)) : String :=
  String.mk ((b64urlIndices ((entropy.take nbytes).map Fin.val)).map
    (fun i => b64urlAlphabet.getD i 'A'))

/-- URL-safe characters: letters, digits, `-`, `_`. -/
def isUrlSafeChar (c : Char) : Bool :=
  c.isAlphanum || c == '-' || c == '_'

/-- HTTPException payload. -/
structure HTTPEx where
  status_code : Nat
  detail : String

namespace SessionManager

/-- Embedding of `SessionManager.create_user_session`: builds the fresh
session_data dict from the caller's user_data (`.get` with the defaults the
code uses), merges it into the existing session via `request.session.update`,
then stores a fresh CSRF token from `secrets.token_urlsafe(32)`. -/
def create_user_session (session : Session) (user_data : Session) (now : Nat)
    (entropy : List (Fin 256)) : Session :=
  sset (supdate session
    [("user_id", (user_data "user_id").getD SVal.vNone),
     ("username", (user_data "username").getD SVal.vNone),
     ("email", (user_data "email").getD SVal.vNone),
     ("role", (user_data "role").getD (SVal.vStr "user")),
     ("login_time", SVal.vInt now),
     ("last_activity", SVal.vInt now),
     ("authenticated", SVal.vBool true),
     ("display_name", (user_data "display_name").getD SVal.vNone),
     ("google_info", (user_data "google_info").getD (SVal.vDict []))])
    "csrf_token" (SVal.vStr (token_urlsafe 32 entropy))

/-- Embedding of `SessionManager._is_session_expired`: a missing or falsy
last_activity is expired, a valid timestamp is expired when more than
`max_age_hours` have passed, and an unparsable value is expired via the
bare `except`. -/
def is_session_expired (session : Session) (now : Nat)
    (max_age_hours : Nat := 24) : Bool :=
  match session "last_activity" with
  | some (SVal.vInt t) => decide (t + max_age_hours * 3600 < now)
  | _ => true

/-- Embedding of `SessionManager.clear_session`: `request.session.clear()`. -/
def clear_session (_ : Session) : Session := fun _ => none

/-- The dict `get_current_user` returns on success (reads of the session
after the last_activity refresh; `google_info` defaults to `{}`). -/
structure UserRec where
  user_id : Option SVal
  username : Option SVal
  email : Option SVal
  role : Option SVal
  login_time : Option SVal
  csrf_token : Option SVal
  display_name : Option SVal
  google_info : SVal

def session_user_record (s : Session) : UserRec :=
  { user_id := s "user_id"
    username := s "username"
    email := s "email"
    role := s "role"
    login_time := s "login_time"
    csrf_token := s "csrf_token"
    display_name := s "display_name"
    google_info := (s "google_info").getD (SVal.vDict []) }

/-- Embedding of `SessionManager.get_current_user`.  Note the order the code
uses: last_activity is refreshed first, and only then `_is_session_expired`
is consulted.  Returns the result together with the mutated session. -/
def get_current_user (session : Session) (now : Nat) :
    Option UserRec × Session :=
  if truthy (session "authenticated") then
    let s1 := sset session "last_activity" (SVal.vInt now)
    if is_session_expired s1 now then (none, clear_session s1)
    else (some (session_user_record s1), s1)
  else (none, session)

/-- Embedding of `SessionManager.require_auth`: 401 when no user. -/
def require_auth (session : Session) (now : Nat) :
    Except HTTPEx (UserRec × Session) :=
  match get_current_user session now with
  | (some u, s1) => .ok (u, s1)
  | (none, _) => .error ⟨401, "Authentication required. Please login first."⟩

/-- Python `str.title()` restricted to the single-word role names this code
passes to it: first character uppercased, the rest lowercased. -/
def pyTitle (s : String) : String :=
  match s.toList with
  | [] => ""
  | c :: cs => String.mk (c.toUpper :: cs.map Char.toLower)

/-- The comparison `user["role"] != required_role`: the stored role is a
string compared to `required_role`; any non-string value compares unequal. -/
def roleMismatch (v : Option SVal) (required : String) : Bool :=
  match v with
  | some (SVal.vStr s) => s != required
  | _ => true

/-- Embedding of `SessionManager.require_role`. -/
def require_role (session : Session) (now : Nat) (required_role : String) :
    Except HTTPEx (UserRec × Session) :=
  match require_auth session now with
  | .error e => .error e
  | .ok (u, s1) =>
      if roleMismatch u.role required_role then
        .error ⟨403, "Access denied. " ++ pyTitle required_role ++ " role required."⟩
      else .ok (u, s1)

end SessionManager

namespace JwtUtils

/-- The module constant `SECRET_KEY` of jwt_utils.py. -/
def SECRET_KEY : String := "boffins-secret-key"

def EXPIRE_MINUTES : Nat := 30

/-- The claims a decoded payload may carry: `sub`, `role` (either may be
absent — `payload.get` then yields None) and the `exp` timestamp. -/
structure JwtPayload where
  sub : Option String
  role : Option String
  exp : Nat

/-- A presented bearer token: either a well-formed JWT signed under some
key, or an undecodable string (malformed payload / broken signature encode
as `malformed`, since `jwt.decode` raises `JWTError` on both). -/
inductive Token where
  | signed (key : String) (payload : JwtPayload)
  | malformed (raw : String)

/-- Embedding of `create_jwt_token`: payload {sub, role, exp = now + 30min}
signed under the server secret. -/
def create_jwt_token (username : String) (role : String) (now : Nat) : Token :=
  Token.signed SECRET_KEY
    { sub := some username, role := some role, exp := now + EXPIRE_MINUTES * 60 }

/-- The dict `verify_jwt_token` returns on success. -/
structure VerifyResult where
  username : Option String
  role : Option String

/-- Embedding of `verify_jwt_token`: `jwt.decode` succeeds exactly when the
signature key matches the server secret and the token is well formed and
`exp` has not passed (jose raises `ExpiredSignatureError` iff `exp < now`);
every `JWTError` collapses to the single `none` outcome. -/
def verify_jwt_token (token : Token) (now : Nat) : Option VerifyResult :=
  match token with
  | Token.signed key p =>
      if key = SECRET_KEY ∧ now ≤ p.exp then some ⟨p.sub, p.role⟩ else none
  | Token.malformed _ => none

/-- Embedding of `jwt_utils.get_current_user`: `if not data` is false for
every dict `verify_jwt_token` can return (it always has two keys), so the
guard rejects with 401 exactly when verification returned None. -/
def get_current_user (token : Token) (now : Nat) : Except HTTPEx VerifyResult :=
  match verify_jwt_token token now with
  | some d => .ok d
  | none => .error ⟨401, "Invalid or expired token"⟩

end JwtUtils

/-- A row of the `users` table (models.py). -/
structure DBUser where
  id : Nat
  username : String
  hashed_password : String
  role : String

/-- The `/signup` request body (main.py `UserIn`): role defaults to "user". -/
structure UserIn where
  username : String
  password : String
  role : String := "user"

/-- Pydantic parse of the signup body: the role field, when absent from the
request payload, takes the declared default "user". -/
def UserIn.ofRequest (username password : String) (role : Option String) : UserIn :=
  { username := username, password := password, role := role.getD "user" }

/-- The `/signup` success body. -/
structure SignupResp where
  message : String
  user_id : Nat

/-- Embedding of `signup` (main.py): Conflict when a row with exactly the
same username exists (SQLite string equality is case-sensitive), otherwise
insert a row whose role is taken from the request payload.  Password
hashing is an external collaborator passed in as a function. -/
def signup (hash_password : String → String) (user : UserIn)
    (db : List DBUser) : Except HTTPEx (SignupResp × List DBUser) :=
  if (db.find? (fun u => u.username == user.username)).isSome then
    .error ⟨400, "Username already exists"⟩
  else
    .ok ({ message := "User created successfully", user_id := db.length + 1 },
      db ++ [{ id := db.length + 1, username := user.username,
               hashed_password := hash_password user.password,
               role := user.role }])

/-- A row of the `user_profiles` table (profile_models.py); timestamps and
the rendered-only fields are omitted as no claim mentions them. -/
structure UserProfile where
  id : Nat
  user_id : Nat
  first_name : Option String
  last_name : Option String
  email : Option String
  phone : Option String
  bio : Option String

/-- The `ProfileCreate` request schema (profile_schemas.py); the EmailStr
format check is delegated to the pydantic library and not modelled. -/
structure ProfileCreate where
  first_name : Option String := none
  last_name : Option String := none
  email : Option String := none
  phone : Option String := none
  bio : Option String := none

/-- Embedding of the `validate_phone` validator: rejects a truthy phone of
fewer than 10 characters (an absent or empty phone passes). -/
def validate_phone (v : Option String) : Except String (Option String) :=
  match v with
  | some s =>
      if s ≠ "" ∧ s.length < 10 then
        .error "Phone number must be at least 10 characters"
      else .ok (some s)
  | none => .ok none

/-- Embedding of the `validate_bio` validator: rejects a truthy bio of more
than 200 characters. -/
def validate_bio (v : Option String) : Except String (Option String) :=
  match v with
  | some s =>
      if s ≠ "" ∧ 200 < s.length then
        .error "Bio must be less than 200 characters"
      else .ok (some s)
  | none => .ok none

/-- Pydantic validation of a ProfileCreate body: both field validators must
pass before the handler ever runs. -/
def validateProfileCreate (p : ProfileCreate) : Except String ProfileCreate :=
  match validate_phone p.phone with
  | .error e => .error e
  | .ok ph =>
      match validate_bio p.bio with
      | .error e => .error e
      | .ok b => .ok { p with phone := ph, bio := b }

/-- `db.query(UserProfile).filter(UserProfile.user_id == uid).first()`. -/
def find_profile (profiles : List UserProfile) (uid : Nat) : Option UserProfile :=
  profiles.find? (fun p => p.user_id == uid)

/-- Embedding of `create_profile_api` (profile_routes.py): 404 when the
token's username has no user row, 400 Conflict when a profile already
exists, else insert.  The store is returned unchanged on every failure. -/
def create_profile_api (current_username : String) (profile_data : ProfileCreate)
    (users : List DBUser) (profiles : List UserProfile) :
    Except HTTPEx UserProfile × List UserProfile :=
  match users.find? (fun u => u.username == current_username) with
  | none => (.error ⟨404, "User not found"⟩, profiles)
  | some user =>
      match find_profile profiles user.id with
      | some _ => (.error ⟨400, "Profile already exists for this user"⟩, profiles)
      | none =>
          let profile : UserProfile :=
            { id := profiles.length + 1, user_id := user.id,
              first_name := profile_data.first_name,
              last_name := profile_data.last_name,
              email := profile_data.email,
              phone := profile_data.phone, bio := profile_data.bio }
          (.ok profile, profiles ++ [profile])

/-- Request-body validation happens before the handler: on a validation
failure the route body (and hence any persistence) never runs. -/
inductive ApiError where
  | validation (msg : String)
  | http (e : HTTPEx)

/-- The full API profile-create pipeline: pydantic validation, then the
handler. -/
def create_profile_api_request (current_username : String) (raw : ProfileCreate)
    (users : List DBUser) (profiles : List UserProfile) :
    Except ApiError UserProfile × List UserProfile :=
  match validateProfileCreate raw with
  | .error m => (.error (ApiError.validation m), profiles)
  | .ok pd =>
      match create_profile_api current_username pd users profiles with
      | (.ok p, ps) => (.ok p, ps)
      | (.error e, ps) => (.error (ApiError.http e), ps)

/-- Responses of the HTML form route `create_profile_form`: both pages are
TemplateResponses rendered with the default status 200.  (The route's
`except` branch re-renders the form; it is unreachable in this model since
the modelled insert cannot throw.) -/
inductive FormResult where
  | myProfilePage (profile : UserProfile)
  | successPage (profile : UserProfile)

/-- TemplateResponse default status. -/
def formStatus : FormResult → Nat
  | _ => 200

/-- Embedding of `create_profile_form` (profile_routes.py): when a profile
already exists for the session user it renders my_profile.html with the
existing profile — it does not raise — otherwise it inserts and renders
profile_success.html.  Empty form strings for phone/bio are stored as NULL. -/
def create_profile_form (current_user_id : Nat)
    (first_name last_name email phone bio : String)
    (profiles : List UserProfile) : FormResult × List UserProfile :=
  match find_profile profiles current_user_id with
  | some existing => (FormResult.myProfilePage existing, profiles)
  | none =>
      let profile : UserProfile :=
        { id := profiles.length + 1, user_id := current_user_id,
          first_name := some first_name, last_name := some last_name,
          email := some email,
          phone := if phone = "" then none else some phone,
          bio := if bio = "" then none else some bio }
      (FormResult.successPage profile, profiles ++ [profile])

/-- A JSON object returned by the provider (id-token claims or the userinfo
endpoint), as a string-to-string mapping. -/
abbrev UserInfo : Type := List (String × String)

/-- `user_info.get(k)` / `'k' in user_info`. -/
def uiGet (ui : UserInfo) (k : String) : Option String :=
  match ui.find? (fun p => p.1 == k) with
  | some p => some p.2
  | none => none

/-- The outcome of the provider exchange in `auth_callback`:
whether `authorize_access_token` succeeded, the parsed id-token claims when
an id_token was present and parsed to something truthy, and the userinfo
endpoint's JSON used as the fallback. -/
structure CallbackInput where
  token_exchange_ok : Bool
  id_token_info : Option UserInfo
  userinfo_resp : UserInfo

/-- The response of `auth_callback`: a 302 redirect to /dashboard on
success, or the 400 error page from the catch-all `except`. -/
inductive CallbackResult where
  | redirect (location : String)
  | authError (message : String)

def callbackStatus : CallbackResult → Nat
  | CallbackResult.redirect _ => 302
  | CallbackResult.authError _ => 400

/-- The user_info the callback works with: the id-token claims when they
were obtained, otherwise the userinfo endpoint response. -/
def effective_user_info (inp : CallbackInput) : UserInfo :=
  match inp.id_token_info with
  | some ui => ui
  | none => inp.userinfo_resp

/-- Embedding of `auth_callback` (oauth.py): any exchange failure or a
missing email renders the 400 error page and touches neither the user
table nor the session; otherwise the user is found or created and
`SessionManager.create_user_session` is called with the resolved identity
and provider metadata before the 302 redirect. -/
def auth_callback (inp : CallbackInput) (db : List DBUser) (session : Session)
    (now : Nat) (entropy : List (Fin 256)) :
    CallbackResult × List DBUser × Session :=
  if !inp.token_exchange_ok then
    (CallbackResult.authError "exchange failed", db, session)
  else
    let user_info := effective_user_info inp
    match uiGet user_info "email" with
    | none => (CallbackResult.authError "Email not returned by Google", db, session)
    | some email =>
        let found := db.find? (fun u => u.username == email)
        let user : DBUser :=
          match found with
          | some u => u
          | none => { id := db.length + 1, username := email,
                      hashed_password := "", role := "user" }
        let db1 : List DBUser :=
          match found with
          | some _ => db
          | none => db ++ [user]
        let optStr : Option String → SVal :=
          fun o => match o with
            | some s => SVal.vStr s
            | none => SVal.vNone
        let user_data : Session := sessionOf
          [("user_id", SVal.vInt user.id),
           ("username", SVal.vStr user.username),
           ("email", SVal.vStr email),
           ("role", SVal.vStr user.role),
           ("display_name",
             SVal.vStr ((uiGet user_info "name").getD
               ((uiGet user_info "email").getD "User"))),
           ("google_info", SVal.vDict
             [("name", optStr (uiGet user_info "name")),
              ("picture", optStr (uiGet user_info "picture")),
              ("google_id", optStr (uiGet user_info "sub"))])]
        (CallbackResult.redirect "/dashboard", db1,
          SessionManager.create_user_session session user_data now entropy)

/-! Helper lemmas and concrete fixtures used by the claim theorems. -/

/-- The keys of the fresh record `create_user_session` writes. -/
def freshSessionKeys : List String :=
  ["user_id", "username", "email", "role", "login_time", "last_activity",
   "authenticated", "display_name", "google_info", "csrf_token"]

/-- Every lookup into the base64url alphabet (default included) yields a
URL-safe character. -/
theorem urlSafe_alphabet_getD (i : Nat) :
    isUrlSafeChar (b64urlAlphabet.getD i 'A') = true := by
  by_cases h : i < b64urlAlphabet.length
  · have hmem : b64urlAlphabet.getD i 'A' ∈ b64urlAlphabet := by
      rw [List.getD_eq_getElem _ _ h]
      exact List.getElem_mem h
    have hall : ∀ c ∈ b64urlAlphabet, isUrlSafeChar c = true := by decide
    exact hall _ hmem
  · rw [List.getD_eq_default _ _ (Nat.le_of_not_lt h)]
    decide

/-- Every character of a token_urlsafe output is URL-safe, whatever the
entropy bytes were. -/
theorem token_urlsafe_chars_safe (nbytes : Nat) (entropy : List (Fin 256)) :
    ∀ c ∈ (token_urlsafe nbytes entropy).toList, isUrlSafeChar c = true := by
  intro c hc
  have hm : c ∈ (b64urlIndices ((entropy.take nbytes).map Fin.val)).map
      (fun i => b64urlAlphabet.getD i 'A') := hc
  obtain ⟨i, _, rfl⟩ := List.mem_map.mp hm
  exact urlSafe_alphabet_getD i

/-- A concrete 32-byte entropy source standing in for `os.urandom(32)`. -/
def zeros32 : List (Fin 256) := List.replicate 32 0

/-- The identity record `/login` resolves for a password user "alice". -/
def c1UserData : Session := sessionOf
  [("user_id", SVal.vInt 1), ("username", SVal.vStr "alice"),
   ("email", SVal.vStr "alice@example.com"), ("role", SVal.vStr "user")]

/-- A session created by `create_user_session` for alice at time 0. -/
def c1Session : Session :=
  SessionManager.create_user_session Session.empty c1UserData 0 zeros32

/-- A prior session still holding a leftover key, as after an interrupted
OAuth handshake. -/
def c2PriorSession : Session :=
  sset Session.empty "oauth_state" (SVal.vStr "stale")

/-- An identity record for the C2 fixtures. -/
def c2UserData : Session := sessionOf
  [("user_id", SVal.vInt 2), ("username", SVal.vStr "bea"),
   ("role", SVal.vStr "user")]

/-- An authenticated admin session whose last activity was at time 0. -/
def c9AdminSession : Session := sessionOf
  [("authenticated", SVal.vBool true), ("role", SVal.vStr "admin"),
   ("username", SVal.vStr "root"), ("user_id", SVal.vInt 7),
   ("last_activity", SVal.vInt 0), ("login_time", SVal.vInt 0)]

/-- An authenticated plain-user session whose last activity was at time 0. -/
def c9UserSession : Session := sessionOf
  [("authenticated", SVal.vBool true), ("role", SVal.vStr "user"),
   ("username", SVal.vStr "bob"), ("user_id", SVal.vInt 8),
   ("last_activity", SVal.vInt 0), ("login_time", SVal.vInt 0)]

/-- A token correctly signed under the server secret, unexpired, but
carrying neither a `sub` nor a `role` claim. -/
def c10Token : JwtUtils.Token :=
  JwtUtils.Token.signed JwtUtils.SECRET_KEY
    { sub := none, role := none, exp := 1000 }

/-- An existing profile row for user 1. -/
def c4Profile : UserProfile :=
  { id := 1, user_id := 1, first_name := some "Ada", last_name := some "L",
    email := some "ada@example.com", phone := none, bio := none }

/-- The users table backing the C4 witness. -/
def c4Users : List DBUser :=
  [{ id := 1, username := "ada", hashed_password := "h", role := "user" }]

/-- Provider output in which neither the id token nor the userinfo endpoint
carries an email. -/
def c8Input : CallbackInput :=
  { token_exchange_ok := true, id_token_info := none,
    userinfo_resp := [("name", "NoMail")] }

/-! Claim theorems. -/

/-- Claim C1 (code_bug evidence): for a session created by
`create_user_session` at time 0, `get_current_user` still returns the full
identity record — fields identical to creation — both at 1 hour and at 25
hours of inactivity, and the 25-hour call leaves the session authenticated
instead of treating it as absent and clearing it.  The code refreshes
`last_activity` before consulting `_is_session_expired`, so the 24-hour
inactivity expiry the claim (and spec) describe can never fire. -/
theorem c1_get_current_user_returns_expired_session :
    (∃ u s1, SessionManager.get_current_user c1Session 3600 = (some u, s1) ∧
      u.username = some (SVal.vStr "alice") ∧
      u.user_id = some (SVal.vInt 1) ∧
      u.role = some (SVal.vStr "user") ∧
      u.login_time = some (SVal.vInt 0)) ∧
    (∃ u s1, SessionManager.get_current_user c1Session 90000 = (some u, s1) ∧
      u.username = some (SVal.vStr "alice") ∧
      u.user_id = some (SVal.vInt 1) ∧
      u.role = some (SVal.vStr "user") ∧
      u.login_time = some (SVal.vInt 0) ∧
      s1 "authenticated" = some (SVal.vBool true)) :=
  ⟨⟨_, _, rfl, rfl, rfl, rfl, rfl⟩, ⟨_, _, rfl, rfl, rfl, rfl, rfl, rfl⟩⟩

/-- Claim C2 (counterexample): `create_user_session` merges via
`request.session.update`, so a key of the prior session state that the
fresh record does not set — here the leftover "oauth_state" — survives
session creation, contradicting the claim that no key of the prior state
survives. -/
theorem c2_counterexample_prior_key_survives :
    "oauth_state" ∉ freshSessionKeys ∧
    SessionManager.create_user_session c2PriorSession c2UserData 0 zeros32
      "oauth_state" = some (SVal.vStr "stale") :=
  ⟨by decide, rfl⟩

/-- Claim C2 (amended): `create_user_session` overwrites the ten keys of
its fresh record — setting authenticated to true, login_time and
last_activity to now, and a freshly generated CSRF token that is the
URL-safe base64 encoding of the 32 random bytes drawn — but it merges into
the existing session state: every key outside the fresh record keeps its
prior value. -/
theorem c2_create_session_fresh_fields_merge (session user_data : Session)
    (now : Nat) (entropy : List (Fin 256)) :
    SessionManager.create_user_session session user_data now entropy
      "authenticated" = some (SVal.vBool true) ∧
    SessionManager.create_user_session session user_data now entropy
      "login_time" = some (SVal.vInt now) ∧
    SessionManager.create_user_session session user_data now entropy
      "last_activity" = some (SVal.vInt now) ∧
    SessionManager.create_user_session session user_data now entropy
      "csrf_token" = some (SVal.vStr (token_urlsafe 32 entropy)) ∧
    (∀ c ∈ (token_urlsafe 32 entropy).toList, isUrlSafeChar c = true) ∧
    (∀ k, k ∉ freshSessionKeys →
      SessionManager.create_user_session session user_data now entropy k
        = session k) := by
  refine ⟨?_, ?_, ?_, ?_, token_urlsafe_chars_safe 32 entropy, ?_⟩
  · simp [SessionManager.create_user_session, supdate, sset]
  · simp [SessionManager.create_user_session, supdate, sset]
  · simp [SessionManager.create_user_session, supdate, sset]
  · simp [SessionManager.create_user_session, supdate, sset]
  · intro k hk
    simp only [freshSessionKeys, List.mem_cons, List.mem_singleton] at hk
    push_neg at hk
    obtain ⟨h1, h2, h3, h4, h5, h6, h7, h8, h9, h10⟩ := hk
    simp [SessionManager.create_user_session, supdate, sset,
      h1, h2, h3, h4, h5, h6, h7, h8, h9, h10]

/-- Claim C2 (witness): the amended statement evaluated on a concrete prior
session, identity record, time and entropy; the untouched key "theme" is
outside the fresh record. -/
theorem c2_create_session_fresh_fields_merge_witness :
    SessionManager.create_user_session c2PriorSession c2UserData 5 zeros32
      "authenticated" = some (SVal.vBool true) ∧
    SessionManager.create_user_session c2PriorSession c2UserData 5 zeros32
      "csrf_token" = some (SVal.vStr (token_urlsafe 32 zeros32)) ∧
    SessionManager.create_user_session c2PriorSession c2UserData 5 zeros32
      "theme" = c2PriorSession "theme" :=
  ⟨(c2_create_session_fresh_fields_merge c2PriorSession c2UserData 5 zeros32).1,
   (c2_create_session_fresh_fields_merge c2PriorSession c2UserData 5 zeros32).2.2.2.1,
   (c2_create_session_fresh_fields_merge c2PriorSession c2UserData 5 zeros32).2.2.2.2.2
     "theme" (by decide)⟩

/-- Claim C3 (counterexample): at exactly 30 minutes after issuance
(now = exp = 1800) the token still verifies, because `jwt.decode` only
raises once `exp < now`; so "verification fails once 30 minutes have
elapsed" is false at the boundary instant. -/
theorem c3_counterexample_valid_at_exact_expiry :
    JwtUtils.verify_jwt_token (JwtUtils.create_jwt_token "alice" "user" 0) 1800
      = some ⟨some "alice", some "user"⟩ := rfl

/-- Claim C3 (amended): a token from `create_jwt_token u r` verifies to
exactly {username = u, role = r} whenever at most 30 minutes have elapsed
(boundary included), fails once strictly more than 30 minutes have
elapsed, and every failure — expiry, an unparsable token, or a signature
under the wrong key — yields the same single None outcome. -/
theorem c3_token_roundtrip_and_expiry (u r : String) (t0 t : Nat) :
    (t ≤ t0 + JwtUtils.EXPIRE_MINUTES * 60 →
      JwtUtils.verify_jwt_token (JwtUtils.create_jwt_token u r t0) t
        = some ⟨some u, some r⟩) ∧
    (t0 + JwtUtils.EXPIRE_MINUTES * 60 < t →
      JwtUtils.verify_jwt_token (JwtUtils.create_jwt_token u r t0) t = none) ∧
    (∀ raw, JwtUtils.verify_jwt_token (JwtUtils.Token.malformed raw) t = none) ∧
    (∀ key p, key ≠ JwtUtils.SECRET_KEY →
      JwtUtils.verify_jwt_token (JwtUtils.Token.signed key p) t = none) := by
  refine ⟨?_, ?_, ?_, ?_⟩
  · intro h
    simp [JwtUtils.verify_jwt_token, JwtUtils.create_jwt_token,
      JwtUtils.EXPIRE_MINUTES] at h ⊢
    omega
  · intro h
    simp [JwtUtils.verify_jwt_token, JwtUtils.create_jwt_token,
      JwtUtils.EXPIRE_MINUTES] at h ⊢
    omega
  · intro raw; rfl
  · intro key p hk
    simp [JwtUtils.verify_jwt_token, hk]

/-- Claim C3 (witness): the amended statement evaluated at concrete times:
valid at 60 seconds, invalid at 1801 seconds, and both other failure modes
collapse to None. -/
theorem c3_token_roundtrip_and_expiry_witness :
    JwtUtils.verify_jwt_token (JwtUtils.create_jwt_token "alice" "user" 0) 60
      = some ⟨some "alice", some "user"⟩ ∧
    JwtUtils.verify_jwt_token (JwtUtils.create_jwt_token "alice" "user" 0) 1801
      = none ∧
    JwtUtils.verify_jwt_token (JwtUtils.Token.malformed "garbage") 0 = none ∧
    JwtUtils.verify_jwt_token
      (JwtUtils.Token.signed "wrong-key" ⟨some "alice", some "user", 99999⟩) 0
      = none :=
  ⟨(c3_token_roundtrip_and_expiry "alice" "user" 0 60).1 (by decide),
   (c3_token_roundtrip_and_expiry "alice" "user" 0 1801).2.1 (by decide),
   (c3_token_roundtrip_and_expiry "alice" "user" 0 0).2.2.1 "garbage",
   (c3_token_roundtrip_and_expiry "alice" "user" 0 0).2.2.2 "wrong-key"
     ⟨some "alice", some "user", 99999⟩ (by decide)⟩

/-- Claim C4 (counterexample): a profile-create request through the HTML
form route by a user who already has a profile does not fail with
Conflict: it renders the existing profile page with status 200 (though it
does leave the store unchanged). -/
theorem c4_counterexample_form_route_renders_existing :
    create_profile_form 1 "Ada" "L" "ada@example.com" "" "" [c4Profile]
      = (FormResult.myProfilePage c4Profile, [c4Profile]) ∧
    formStatus (create_profile_form 1 "Ada" "L" "ada@example.com" "" ""
      [c4Profile]).1 = 200 :=
  ⟨rfl, rfl⟩

/-- Claim C4 (amended): when the requesting user already has a profile, the
API create route fails with the Conflict error (rendered as HTTP 400,
"Profile already exists for this user") and leaves the profile store
unchanged, while the HTML form route does not fail — it renders the
existing profile with a 200 — and likewise leaves the store unchanged; in
both cases no second row is created and the existing profile's fields are
untouched. -/
theorem c4_duplicate_profile_create_behavior (users : List DBUser)
    (profiles : List UserProfile) (username : String) (user : DBUser)
    (existing : UserProfile) (pd : ProfileCreate) (fn ln em ph bi : String)
    (hu : users.find? (fun u => u.username == username) = some user)
    (hp : find_profile profiles user.id = some existing) :
    create_profile_api username pd users profiles
      = (.error ⟨400, "Profile already exists for this user"⟩, profiles) ∧
    create_profile_form user.id fn ln em ph bi profiles
      = (FormResult.myProfilePage existing, profiles) ∧
    formStatus (FormResult.myProfilePage existing) = 200 := by
  refine ⟨?_, ?_, rfl⟩
  · simp [create_profile_api, hu, hp]
  · simp [create_profile_form, hp]

/-- Claim C4 (witness): the amended statement evaluated on a concrete store
holding a single profile for user 1 = "ada". -/
theorem c4_duplicate_profile_create_behavior_witness :
    create_profile_api "ada" {} c4Users [c4Profile]
      = (.error ⟨400, "Profile already exists for this user"⟩, [c4Profile]) ∧
    create_profile_form 1 "Ada" "L" "ada@example.com" "" "" [c4Profile]
      = (FormResult.myProfilePage c4Profile, [c4Profile]) :=
  ⟨(c4_duplicate_profile_create_behavior c4Users [c4Profile] "ada"
      { id := 1, username := "ada", hashed_password := "h", role := "user" }
      c4Profile {} "Ada" "L" "ada@example.com" "" "" rfl rfl).1,
   (c4_duplicate_profile_create_behavior c4Users [c4Profile] "ada"
      { id := 1, username := "ada", hashed_password := "h", role := "user" }
      c4Profile {} "Ada" "L" "ada@example.com" "" "" rfl rfl).2.1⟩

/-- Claim C5: signup stores the role supplied in the request payload on the
created user — the parsed body defaults the role to "user" only when the
field is absent — so an unauthenticated signup request carrying role
"admin" and a fresh username creates an account whose role is "admin"; the
route performs no authorization check (it takes no session or token
input). -/
theorem c5_signup_stores_requested_role :
    (UserIn.ofRequest "newuser" "pw" none).role = "user" ∧
    (UserIn.ofRequest "mallory" "pw" (some "admin")).role = "admin" ∧
    signup id (UserIn.ofRequest "mallory" "pw" (some "admin")) []
      = .ok ({ message := "User created successfully", user_id := 1 },
          [{ id := 1, username := "mallory", hashed_password := "pw",
             role := "admin" }]) :=
  ⟨rfl, rfl, rfl⟩

/-- Claim C6: a bio of 201 characters fails validation with the
ValidationError and a bio of 200 characters passes; a phone of 9
characters fails and a phone of 10 characters passes; and any validation
failure aborts the API create pipeline before the handler runs, leaving
the profile store untouched. -/
theorem c6_profile_validation_bounds :
    (∀ s : String, s.length = 201 →
      validate_bio (some s) = .error "Bio must be less than 200 characters") ∧
    (∀ s : String, s.length = 200 → validate_bio (some s) = .ok (some s)) ∧
    (∀ s : String, s.length = 9 →
      validate_phone (some s)
        = .error "Phone number must be at least 10 characters") ∧
    (∀ s : String, s.length = 10 → validate_phone (some s) = .ok (some s)) ∧
    (∀ (username : String) (raw : ProfileCreate) (users : List DBUser)
        (profiles : List UserProfile) (m : String),
      validateProfileCreate raw = .error m →
      create_profile_api_request username raw users profiles
        = (.error (ApiError.validation m), profiles)) := by
  refine ⟨?_, ?_, ?_, ?_, ?_⟩
  · intro s h
    have hne : s ≠ "" := by intro he; rw [he] at h; simp at h
    simp [validate_bio, hne, h]
  · intro s h
    simp [validate_bio, h]
  · intro s h
    have hne : s ≠ "" := by intro he; rw [he] at h; simp at h
    simp [validate_phone, hne, h]
  · intro s h
    simp [validate_phone, h]
  · intro username raw users profiles m hval
    simp [create_profile_api_request, hval]

set_option maxRecDepth 4096 in
/-- Claim C6 (witness): the bounds evaluated on concrete strings of lengths
201, 200, 9 and 10, and a concrete over-long-bio payload aborting the
pipeline with the store unchanged. -/
theorem c6_profile_validation_bounds_witness :
    validate_bio (some (String.mk (List.replicate 201 'a')))
      = .error "Bio must be less than 200 characters" ∧
    validate_bio (some (String.mk (List.replicate 200 'a')))
      = .ok (some (String.mk (List.replicate 200 'a'))) ∧
    validate_phone (some "123456789")
      = .error "Phone number must be at least 10 characters" ∧
    validate_phone (some "1234567890") = .ok (some "1234567890") ∧
    create_profile_api_request "alice"
      { bio := some (String.mk (List.replicate 201 'a')) } [] []
      = (.error (ApiError.validation "Bio must be less than 200 characters"),
         []) :=
  ⟨c6_profile_validation_bounds.1 _ (by decide),
   c6_profile_validation_bounds.2.1 _ (by decide),
   c6_profile_validation_bounds.2.2.1 _ (by decide),
   c6_profile_validation_bounds.2.2.2.1 _ (by decide),
   c6_profile_validation_bounds.2.2.2.2 "alice"
     { bio := some (String.mk (List.replicate 201 'a')) } [] []
     "Bio must be less than 200 characters" rfl⟩

/-- Claim C7: when a username is fresh, the first signup succeeds and a
second signup with exactly the same username fails with the Conflict error
("Username already exists", HTTP 400), leaving the store with exactly one
row for that username; string comparison in the lookup is exact and
case-sensitive. -/
theorem c7_duplicate_signup_conflict (hashf : String → String)
    (u1 u2 : UserIn) (db : List DBUser)
    (hsame : u2.username = u1.username)
    (hfresh : db.find? (fun u => u.username == u1.username) = none) :
    ∃ resp db1, signup hashf u1 db = .ok (resp, db1) ∧
      signup hashf u2 db1 = .error ⟨400, "Username already exists"⟩ ∧
      (db1.filter (fun u => u.username == u1.username)).length = 1 := by
  have h1 : signup hashf u1 db
      = .ok ({ message := "User created successfully", user_id := db.length + 1 },
        db ++ [{ id := db.length + 1, username := u1.username,
                 hashed_password := hashf u1.password, role := u1.role }]) := by
    simp [signup, hfresh]
  refine ⟨_, _, h1, ?_, ?_⟩
  · have hpred : (fun (u : DBUser) => u.username == u2.username)
        = (fun u => u.username == u1.username) := by
      funext u; rw [hsame]
    simp [signup, hpred, List.find?_append, hfresh]
  · rw [List.filter_append]
    have hnil : db.filter (fun u => u.username == u1.username) = [] := by
      rw [List.filter_eq_nil_iff]
      exact fun a ha => List.find?_eq_none.mp hfresh a ha
    rw [hnil]
    simp

/-- Claim C7 (witness): the statement evaluated on an empty store and two
concrete signup requests for "alice". -/
theorem c7_duplicate_signup_conflict_witness :
    ∃ resp db1,
      signup id { username := "alice", password := "pw", role := "user" } []
        = .ok (resp, db1) ∧
      signup id { username := "alice", password := "pw2", role := "admin" } db1
        = .error ⟨400, "Username already exists"⟩ ∧
      (db1.filter (fun u => u.username == "alice")).length = 1 :=
  c7_duplicate_signup_conflict id
    { username := "alice", password := "pw", role := "user" }
    { username := "alice", password := "pw2", role := "admin" } [] rfl rfl

/-- Claim C8: when the provider exchange succeeds but neither the id token
claims nor the userinfo endpoint yield an email, the OAuth callback
renders the 400 authentication-error page, creates no user row, and never
invokes `create_user_session` — the session state is returned exactly as
it was. -/
theorem c8_callback_no_email_no_session (inp : CallbackInput)
    (db : List DBUser) (session : Session) (now : Nat)
    (entropy : List (Fin 256))
    (hok : inp.token_exchange_ok = true)
    (hmail : uiGet (effective_user_info inp) "email" = none) :
    auth_callback inp db session now entropy
      = (CallbackResult.authError "Email not returned by Google", db, session) ∧
    callbackStatus (auth_callback inp db session now entropy).1 = 400 := by
  have h : auth_callback inp db session now entropy
      = (CallbackResult.authError "Email not returned by Google", db, session) := by
    simp [auth_callback, hok, hmail]
  exact ⟨h, by rw [h]; rfl⟩

/-- Claim C8 (witness): the statement evaluated on a concrete provider
response that carries a name but no email, an empty user table and an
empty session. -/
theorem c8_callback_no_email_no_session_witness :
    auth_callback c8Input [] Session.empty 0 zeros32
      = (CallbackResult.authError "Email not returned by Google", [],
         Session.empty) ∧
    callbackStatus (auth_callback c8Input [] Session.empty 0 zeros32).1 = 400 :=
  c8_callback_no_email_no_session c8Input [] Session.empty 0 zeros32 rfl rfl

/-- Claim C9 (code_bug evidence): for an authenticated fresh session,
`require_role "admin"` fails with 403 when the role is "user" — and the
message contains the required role up to the title-casing the code applies
— succeeds with the identity record when the role is "admin", and an
absent session fails with 401; but a session whose last activity was 25
hours ago still succeeds instead of failing with 401, because
`get_current_user` refreshes last_activity before its expiry check. -/
theorem c9_require_role_outcomes_and_expiry_gap :
    SessionManager.require_role c9UserSession 100 "admin"
      = .error ⟨403, "Access denied. Admin role required."⟩ ∧
    List.IsInfix ("admin".toList)
      ("Access denied. Admin role required.".toList.map Char.toLower) ∧
    (∃ u s1, SessionManager.require_role c9AdminSession 100 "admin"
        = .ok (u, s1) ∧
      u.role = some (SVal.vStr "admin") ∧
      u.username = some (SVal.vStr "root")) ∧
    SessionManager.require_role Session.empty 100 "admin"
      = .error ⟨401, "Authentication required. Please login first."⟩ ∧
    (∃ u s1, SessionManager.require_role c9AdminSession 90000 "admin"
        = .ok (u, s1) ∧
      u.role = some (SVal.vStr "admin")) :=
  ⟨rfl, by decide, ⟨_, _, rfl, rfl, rfl⟩, rfl, ⟨_, _, rfl, rfl⟩⟩

/-- Claim C10: a token correctly signed under the server secret and
unexpired but lacking both the sub and role claims verifies to the record
{username = None, role = None} rather than the invalid outcome, and the
bearer-token guard accepts that record as an authenticated identity
instead of rejecting with 401 (the result dict always has two keys, so the
`if not data` check only catches None). -/
theorem c10_claimless_token_accepted :
    JwtUtils.verify_jwt_token c10Token 0 = some ⟨none, none⟩ ∧
    JwtUtils.get_current_user c10Token 0 = .ok ⟨none, none⟩ :=
  ⟨rfl, rfl⟩
